import Mathlib

/-!
Verification of the convergence engine of the aws-vpce-operator repository.

A shallow embedding of the Go sources:
  - src/pkg/aws_client/vpc_endpoint.go (SelectVPCForVPCEndpoint,
    DescribeSingleVPCEndpointById, FilterVPCEndpointByDefaultTags,
    CreateDefaultInterfaceVPCEndpoint)
  - src/controllers/vpcendpoint/helpers.go (findOrCreateVpcEndpoint,
    ensureVpcEndpointSubnets, diffVpcEndpointSubnets,
    ensureVpcEndpointSecurityGroups, diffVpcEndpointSecurityGroups,
    generateRoute53Record)

The cloud is modelled as an explicit state; every function returns its Go
result together with the ordered list of AWS API calls it issued, so that
ordering and call-count properties can be stated.
-/

namespace AVO

/-- An observed VPC endpoint, as in the fields of `ec2.VpcEndpoint` that the
sources read: id, lifecycle state, attached subnet ids, attached security
group ids (`Groups[i].GroupId`), published DNS entries (`DnsEntries[i].DnsName`),
and tags. -/
structure VpcEndpoint where
  vpcEndpointId : String
  state : String
  subnetIds : List String
  groups : List String
  dnsEntries : List String
  tags : List (String × String)
deriving DecidableEq, Repr

/-- The cloud state visible to the reconciler: the existing VPC endpoints and
the ids of the private subnets of the cluster (the result of
`DescribePrivateSubnets`, which lives outside src/). -/
structure Cloud where
  endpoints : List VpcEndpoint
  privateSubnetIds : List String
deriving DecidableEq, Repr

/-- One AWS API call issued by the reconciler, in issue order. -/
inductive AwsCall where
  | describeById (id : String)
  | describeByTags (clusterTag vpceNameTag : String)
  | createVpcEndpoint (name vpcId serviceName clusterTag : String)
  | modifyRemoveSubnets (vpceId : String) (subnetIds : List String)
  | modifyAddSubnets (vpceId : String) (subnetIds : List String)
  | modifyAddGroups (vpceId : String) (groupIds : List String)
  | modifyRemoveGroups (vpceId : String) (groupIds : List String)
deriving DecidableEq, Repr

/-- A call is mutating when it creates or modifies a VPC endpoint
(`CreateVpcEndpoint` or `ModifyVpcEndpoint` in the sources). -/
def AwsCall.isMutating : AwsCall → Bool
  | .createVpcEndpoint _ _ _ _ => true
  | .modifyRemoveSubnets _ _ => true
  | .modifyAddSubnets _ _ => true
  | .modifyAddGroups _ _ => true
  | .modifyRemoveGroups _ _ => true
  | _ => false

/-- Modelled from the spec: `util.StringSliceTwoWayDiff` is not under src/.
The spec defines the diff as `toAdd = desired − current` and
`toRemove = current − desired`; the call site
`StringSliceTwoWayDiff(vpce.SubnetIds, privateSubnetIds)` in
diffVpcEndpointSubnets passes the current set first and the desired set
second and receives `(toAdd, toRemove)`. -/
def StringSliceTwoWayDiff (current desired : List String) :
    List String × List String :=
  (desired.filter (fun d => !(current.contains d)),
   current.filter (fun c => !(desired.contains c)))

/-- C3: the diff used by the attachment synchronizers computes
toAdd = desired − current and toRemove = current − desired; the two parts are
disjoint, applying the diff to the current set yields the desired set, and
the diff of a set with itself is empty. The function is pure, so it has no
side effects by construction. -/
theorem stringSliceTwoWayDiff_spec (current desired : List String) :
    (∀ x, x ∈ (StringSliceTwoWayDiff current desired).1 ↔
      (x ∈ desired ∧ x ∉ current)) ∧
    (∀ x, x ∈ (StringSliceTwoWayDiff current desired).2 ↔
      (x ∈ current ∧ x ∉ desired)) ∧
    (∀ x, ¬(x ∈ (StringSliceTwoWayDiff current desired).1 ∧
      x ∈ (StringSliceTwoWayDiff current desired).2)) ∧
    (∀ x, ((x ∈ current ∨ x ∈ (StringSliceTwoWayDiff current desired).1) ∧
      x ∉ (StringSliceTwoWayDiff current desired).2) ↔ x ∈ desired) ∧
    StringSliceTwoWayDiff current current = ([], []) := by
  refine ⟨?_, ?_, ?_, ?_, ?_⟩
  · intro x
    simp [StringSliceTwoWayDiff, List.mem_filter]
  · intro x
    simp [StringSliceTwoWayDiff, List.mem_filter]
  · intro x
    simp [StringSliceTwoWayDiff, List.mem_filter]
    tauto
  · intro x
    simp [StringSliceTwoWayDiff, List.mem_filter]
    tauto
  · simp [StringSliceTwoWayDiff, List.filter_eq_nil_iff]

/-- A cloud API error, as surfaced through the Go error value: either the
`InvalidVpcEndpointId.NotFound` code or some other API error. -/
inductive ApiErr where
  | notFound
  | other (msg : String)
deriving DecidableEq, Repr

/-- The `(resp, err)` pair a Go helper returns: a non-nil response, a nil
response with nil error, or a nil response with an error. -/
inductive GoResult (α : Type) where
  | ok (a : α)
  | okNil
  | err (msg : String)
deriving DecidableEq, Repr

/-- The raw `DescribeVpcEndpoints` answer of the modelled cloud for a lookup
by id: the endpoints whose id matches, or NotFound when none does. -/
def cloudDescribeVpcEndpointsById (cloud : Cloud) (id : String) :
    Except ApiErr (List VpcEndpoint) :=
  match cloud.endpoints.filter (fun e => e.vpcEndpointId == id) with
  | [] => .error .notFound
  | l => .ok l

/-- DescribeSingleVPCEndpointById from src/pkg/aws_client/vpc_endpoint.go,
parameterised by the raw cloud answer `api`. An empty id returns an empty
non-nil output without any API call; a NotFound error becomes `(nil, nil)`;
any other error propagates; a successful answer with a number of endpoints
different from one becomes an error. The second component is the list of
API calls issued. -/
def DescribeSingleVPCEndpointById
    (api : String → Except ApiErr (List VpcEndpoint)) (id : String) :
    GoResult (List VpcEndpoint) × List AwsCall :=
  if id = "" then (.ok [], [])
  else
    match api id with
    | .error .notFound => (.okNil, [.describeById id])
    | .error (.other m) => (.err m, [.describeById id])
    | .ok l =>
        if l.length ≠ 1 then
          (.err "expected 1 VPC endpoint", [.describeById id])
        else (.ok l, [.describeById id])

/-- Modelled from the spec: the fixed operator ownership tag key
(`util.OperatorTagKey` is not under src/). -/
def OperatorTagKey : String := "operator-tag-key"

/-- Modelled from the spec: the fixed operator ownership tag value
(`util.OperatorTagValue` is not under src/). -/
def OperatorTagValue : String := "operator-tag-value"

/-- Whether an endpoint carries the tag key `k` with value `v`. -/
def hasTag (e : VpcEndpoint) (k v : String) : Bool :=
  e.tags.any (fun t => t.1 == k && t.2 == v)

/-- Whether an endpoint carries the tag key `k` with any value. -/
def hasTagKey (e : VpcEndpoint) (k : String) : Bool :=
  e.tags.any (fun t => t.1 == k)

/-- The default tag predicate of FilterVPCEndpointByDefaultTags: a `Name` tag
equal to the synthesized name, the cluster tag key with any value, and the
operator ownership tag pair. -/
def matchesDefaultTags (clusterTag vpceNameTag : String) (e : VpcEndpoint) :
    Bool :=
  hasTag e "Name" vpceNameTag && hasTagKey e clusterTag &&
    hasTag e OperatorTagKey OperatorTagValue

/-- FilterVPCEndpointByDefaultTags from src/pkg/aws_client/vpc_endpoint.go:
an empty cluster tag returns an empty non-nil output without any API call;
otherwise the cloud answers with every endpoint matching the default tag
predicate. -/
def FilterVPCEndpointByDefaultTags (cloud : Cloud)
    (clusterTag vpceNameTag : String) :
    GoResult (List VpcEndpoint) × List AwsCall :=
  if clusterTag = "" then (.ok [], [])
  else
    (.ok (cloud.endpoints.filter (matchesDefaultTags clusterTag vpceNameTag)),
     [.describeByTags clusterTag vpceNameTag])

/-- Modelled from the spec: `util.GenerateVPCEndpointName` is not under src/;
the spec only requires a deterministic name synthesized from the
infrastructure name and the resource name. -/
def GenerateVPCEndpointName (infraName resourceName : String) : String :=
  infraName ++ "-" ++ resourceName

/-- Modelled from the spec: `util.GenerateAwsTags` is not under src/; the
created endpoint carries the synthesized name, the cluster identity tag and
the operator ownership tag. -/
def GenerateAwsTags (name tagKey : String) : List (String × String) :=
  [("Name", name), (tagKey, "owned"), (OperatorTagKey, OperatorTagValue)]

/-- CreateDefaultInterfaceVPCEndpoint from src/pkg/aws_client/vpc_endpoint.go:
creates an endpoint with the generated tags and no subnet or security group
attachments; a newly created endpoint starts in the `pending` state. -/
def CreateDefaultInterfaceVPCEndpoint
    (name vpcId serviceName tagKey : String) :
    VpcEndpoint × List AwsCall :=
  ({ vpcEndpointId := "vpce-" ++ name
     state := "pending"
     subnetIds := []
     groups := []
     dnsEntries := []
     tags := GenerateAwsTags name tagKey },
   [.createVpcEndpoint name vpcId serviceName tagKey])

/-- The per-cluster configuration resolved by parseClusterInfo. -/
structure ClusterInfo where
  clusterTag : String
  infraName : String
  vpcId : String
deriving DecidableEq, Repr

/-- The VpcEndpoint custom resource fields the helpers read: its name, the
target service name, and the recorded status (endpoint id and security group
id). -/
structure VpcEndpointCR where
  name : String
  serviceName : String
  statusVpcEndpointId : String
  statusSecurityGroupId : String
deriving DecidableEq, Repr

/-- findOrCreateVpcEndpoint from src/controllers/vpcendpoint/helpers.go: look
the endpoint up by the recorded id; if that yields nothing, search by the
default tags; if that also yields nothing, create the endpoint. When the tag
search returns matches the first one is used (the TODO in the source notes
this pending fix). The filter in src/ also takes the synthesized Name tag,
which the model computes up front via GenerateVPCEndpointName. -/
def findOrCreateVpcEndpoint (cloud : Cloud) (info : ClusterInfo)
    (res : VpcEndpointCR) : Except String VpcEndpoint × List AwsCall :=
  let d := DescribeSingleVPCEndpointById (cloudDescribeVpcEndpointsById cloud)
    res.statusVpcEndpointId
  match d.1 with
  | .err m => (.error m, d.2)
  | .ok (v :: _) => (.ok v, d.2)
  | _ =>
      -- nil response or zero endpoints: fall back to the tag search
      let vpceName := GenerateVPCEndpointName info.infraName res.name
      let f := FilterVPCEndpointByDefaultTags cloud info.clusterTag vpceName
      match f.1 with
      | .err m => (.error m, d.2 ++ f.2)
      | .ok (v :: _) => (.ok v, d.2 ++ f.2)
      | _ =>
          -- still nothing: create the endpoint
          let c := CreateDefaultInterfaceVPCEndpoint vpceName info.vpcId
            res.serviceName info.clusterTag
          (.ok c.1, d.2 ++ f.2 ++ c.2)

/-- diffVpcEndpointSubnets from src/controllers/vpcendpoint/helpers.go: an
empty cluster tag is an error; otherwise the private subnets of the cluster
are the desired set and the endpoint subnets the current set.
`DescribePrivateSubnets` is not under src/ and is modelled from the spec as
the tag-derived `cloud.privateSubnetIds`. -/
def diffVpcEndpointSubnets (cloud : Cloud) (info : ClusterInfo)
    (vpce : VpcEndpoint) : Except String (List String × List String) :=
  if info.clusterTag = "" then .error "unable to parse cluster tag"
  else .ok (StringSliceTwoWayDiff vpce.subnetIds cloud.privateSubnetIds)

/-- ensureVpcEndpointSubnets from src/controllers/vpcendpoint/helpers.go:
computes the subnet diff, then issues the removal request first (when
non-empty) and the addition request second (when non-empty), to avoid the
DuplicateSubnetsInSameZone conflict. A ModifyVpcEndpoint call that fails
would abort the sequence in Go; the model records the issued calls. -/
def ensureVpcEndpointSubnets (cloud : Cloud) (info : ClusterInfo)
    (vpce : VpcEndpoint) : Except String Unit × List AwsCall :=
  match diffVpcEndpointSubnets cloud info vpce with
  | .error m => (.error m, [])
  | .ok (subnetsToAdd, subnetsToRemove) =>
      let removals := if subnetsToRemove.isEmpty then []
        else [AwsCall.modifyRemoveSubnets vpce.vpcEndpointId subnetsToRemove]
      let additions := if subnetsToAdd.isEmpty then []
        else [AwsCall.modifyAddSubnets vpce.vpcEndpointId subnetsToAdd]
      (.ok (), removals ++ additions)

/-- diffVpcEndpointSecurityGroups from
src/controllers/vpcendpoint/helpers.go: the desired set is the single
security group id recorded in the resource status. -/
def diffVpcEndpointSecurityGroups (vpce : VpcEndpoint)
    (res : VpcEndpointCR) : List String × List String :=
  StringSliceTwoWayDiff vpce.groups [res.statusSecurityGroupId]

/-- ensureVpcEndpointSecurityGroups from
src/controllers/vpcendpoint/helpers.go: computes the security group diff,
then issues the addition request first (when non-empty) and the removal
request second (when non-empty) — this is the order written in the source. -/
def ensureVpcEndpointSecurityGroups (vpce : VpcEndpoint)
    (res : VpcEndpointCR) : Except String Unit × List AwsCall :=
  let sg := diffVpcEndpointSecurityGroups vpce res
  let additions := if sg.1.isEmpty then []
    else [AwsCall.modifyAddGroups vpce.vpcEndpointId sg.1]
  let removals := if sg.2.isEmpty then []
    else [AwsCall.modifyRemoveGroups vpce.vpcEndpointId sg.2]
  (.ok (), additions ++ removals)

/-- A Route53 resource record, holding the DNS name to publish. -/
structure ResourceRecord where
  value : String
deriving DecidableEq, Repr

/-- generateRoute53Record from src/controllers/vpcendpoint/helpers.go: an
empty recorded id is an error; a lookup that yields nothing returns
`(nil, nil)` — no record and no error; a state other than `available` is an
error; an empty DNS entry list is an error; otherwise the first DNS entry is
returned verbatim. -/
def generateRoute53Record (cloud : Cloud) (res : VpcEndpointCR) :
    Except String (Option ResourceRecord) × List AwsCall :=
  if res.statusVpcEndpointId = "" then
    (.error "VPCEndpointID status is missing", [])
  else
    let d := DescribeSingleVPCEndpointById
      (cloudDescribeVpcEndpointsById cloud) res.statusVpcEndpointId
    match d.1 with
    | .err m => (.error m, d.2)
    | .okNil => (.ok none, d.2)
    | .ok [] => (.ok none, d.2)
    | .ok (v :: _) =>
        if v.state ≠ "available" then
          (.error "VPCEndpoint is not in the available state", d.2)
        else
          match v.dnsEntries with
          | [] => (.error "VPCEndpoint has no DNS entries", d.2)
          | dns :: _ => (.ok (some ⟨dns⟩), d.2)

/-- One reconcile pass, composed per spec section 4.6 from the helper
functions of src/: locate or create the endpoint, converge its subnets,
converge its security groups, then synthesize the DNS record. Each step
aborts the pass on error; the second component is the full ordered call
trace. -/
def reconcilePass (cloud : Cloud) (info : ClusterInfo)
    (res : VpcEndpointCR) :
    Except String (Option ResourceRecord) × List AwsCall :=
  match findOrCreateVpcEndpoint cloud info res with
  | (.error m, t) => (.error m, t)
  | (.ok vpce, t) =>
      match ensureVpcEndpointSubnets cloud info vpce with
      | (.error m, t2) => (.error m, t ++ t2)
      | (.ok _, t2) =>
          match ensureVpcEndpointSecurityGroups vpce res with
          | (.error m, t3) => (.error m, t ++ t2 ++ t3)
          | (.ok _, t3) =>
              let d := generateRoute53Record cloud res
              (d.1, t ++ t2 ++ t3 ++ d.2)

/-- Go `math.MaxInt` on a 64-bit platform, the initial minimum of
SelectVPCForVPCEndpoint. -/
def goMaxInt : Nat := 9223372036854775807

/-- One iteration of the selection loop of SelectVPCForVPCEndpoint: keep the
accumulator unless the current id has a strictly smaller endpoint count. -/
def selectLoopStep (count : String → Nat) (acc : String × Nat)
    (vpcId : String) : String × Nat :=
  if count vpcId < acc.2 then (vpcId, count vpcId) else acc

/-- SelectVPCForVPCEndpoint from src/pkg/aws_client/vpc_endpoint.go. The
function builds a Go map from each candidate id to the number of existing
endpoints in that VPC (aggregated over all response pages; here
`endpointVpcIds` lists the VpcId of every returned endpoint), then scans the
map for the first strictly-smaller count. Go map iteration order is
unspecified and randomized, so the scan order is an explicit parameter
`order`; a run of the Go function corresponds to some permutation of the
key set of the map (the deduplicated candidate ids, when every returned
endpoint lies in a candidate VPC). -/
def SelectVPCForVPCEndpoint (order ids endpointVpcIds : List String) :
    Except String String :=
  if ids.isEmpty then
    .error "must specify vpc id when counting VPC Endpoints per VPC"
  else
    let count := fun id => endpointVpcIds.count id
    let r := order.foldl (selectLoopStep count) ("", goMaxInt)
    if r.1 = "" then
      .error "unexpectedly did not select a VPC for the VPC Endpoint"
    else .ok r.1

/-- Auxiliary: for a non-empty id, DescribeSingleVPCEndpointById issues
exactly one describe-by-id call, whatever the cloud answers. -/
theorem describeSingle_trace
    (api : String → Except ApiErr (List VpcEndpoint)) (id : String)
    (hid : id ≠ "") :
    (DescribeSingleVPCEndpointById api id).2 = [.describeById id] := by
  unfold DescribeSingleVPCEndpointById
  rw [if_neg hid]
  match h : api id with
  | .error .notFound => simp
  | .error (.other m) => simp
  | .ok l =>
      by_cases hl : l.length ≠ 1 <;> simp [hl]

/-- C10: DescribeSingleVPCEndpointById returns an empty result and no error
without issuing any API call for the empty id; for a non-empty id it turns a
successful response with a number of endpoints different from one into an
error, and any non-nil response it returns holds exactly one endpoint. -/
theorem describeSingleVPCEndpointById_spec
    (api : String → Except ApiErr (List VpcEndpoint)) (id : String) :
    DescribeSingleVPCEndpointById api "" = (.ok [], []) ∧
    (id ≠ "" → ∀ l, api id = .ok l → l.length ≠ 1 →
      DescribeSingleVPCEndpointById api id =
        (.err "expected 1 VPC endpoint", [.describeById id])) ∧
    (id ≠ "" → ∀ l, (DescribeSingleVPCEndpointById api id).1 = .ok l →
      l.length = 1) := by
  refine ⟨by simp [DescribeSingleVPCEndpointById], ?_, ?_⟩
  · intro hid l hl hlen
    unfold DescribeSingleVPCEndpointById
    rw [if_neg hid, hl]
    simp [hlen]
  · intro hid l h
    unfold DescribeSingleVPCEndpointById at h
    rw [if_neg hid] at h
    match happi : api id with
    | .error .notFound => rw [happi] at h; simp at h
    | .error (.other m) => rw [happi] at h; simp at h
    | .ok l2 =>
        rw [happi] at h
        by_cases hl2 : l2.length ≠ 1
        · simp [hl2] at h
        · simp [hl2] at h
          subst h
          exact not_ne_iff.mp hl2

/-- Witness for C10 at a concrete cloud answer and id. -/
theorem describeSingleVPCEndpointById_spec_witness :
    DescribeSingleVPCEndpointById (fun _ => .ok []) "" = (.ok [], []) ∧
    DescribeSingleVPCEndpointById (fun _ => .ok []) "vpce-1" =
      (.err "expected 1 VPC endpoint", [.describeById "vpce-1"]) :=
  ⟨(describeSingleVPCEndpointById_spec (fun _ => .ok []) "vpce-1").1,
   (describeSingleVPCEndpointById_spec (fun _ => .ok []) "vpce-1").2.1
     (by decide) [] rfl (by decide)⟩

/-- C8: for a found endpoint, generateRoute53Record fails when the state is
not available (whatever the DNS entries are), fails when the state is
available but the DNS entry list is empty, and returns the first DNS entry
verbatim when the state is available and entries exist. -/
theorem generateRoute53Record_found_spec (cloud : Cloud)
    (res : VpcEndpointCR) (v : VpcEndpoint) (rest : List VpcEndpoint)
    (hid : res.statusVpcEndpointId ≠ "")
    (hfound : (DescribeSingleVPCEndpointById
      (cloudDescribeVpcEndpointsById cloud) res.statusVpcEndpointId).1 =
        .ok (v :: rest)) :
    (v.state ≠ "available" → (generateRoute53Record cloud res).1 =
      .error "VPCEndpoint is not in the available state") ∧
    (v.state = "available" → v.dnsEntries = [] →
      (generateRoute53Record cloud res).1 =
        .error "VPCEndpoint has no DNS entries") ∧
    (∀ dns tl, v.state = "available" → v.dnsEntries = dns :: tl →
      (generateRoute53Record cloud res).1 = .ok (some ⟨dns⟩)) := by
  refine ⟨?_, ?_, ?_⟩
  · intro hstate
    unfold generateRoute53Record
    rw [if_neg hid]
    simp only [hfound]
    rw [if_pos hstate]
  · intro hstate hdns
    unfold generateRoute53Record
    rw [if_neg hid]
    simp only [hfound]
    rw [if_neg (by simp [hstate]), hdns]
  · intro dns tl hstate hdns
    unfold generateRoute53Record
    rw [if_neg hid]
    simp only [hfound]
    rw [if_neg (by simp [hstate]), hdns]

/-- Witness for C8 at a concrete available endpoint with two DNS entries. -/
theorem generateRoute53Record_found_spec_witness :
    (generateRoute53Record
      ⟨[⟨"vpce-1", "available", [], [], ["dnsA", "dnsB"], []⟩], []⟩
      ⟨"r", "svc", "vpce-1", "sg-1"⟩).1 = .ok (some ⟨"dnsA"⟩) :=
  (generateRoute53Record_found_spec
      ⟨[⟨"vpce-1", "available", [], [], ["dnsA", "dnsB"], []⟩], []⟩
      ⟨"r", "svc", "vpce-1", "sg-1"⟩
      ⟨"vpce-1", "available", [], [], ["dnsA", "dnsB"], []⟩ []
      (by decide) (by decide)).2.2 "dnsA" ["dnsB"] rfl rfl

/-- Counterexample to C6: with the non-empty recorded id vpce-1 and a cloud
holding no endpoint at all, generateRoute53Record returns a nil record with
a nil error — success, not a failure. -/
theorem generateRoute53Record_absent_cex :
    (generateRoute53Record ⟨[], []⟩ ⟨"r", "svc", "vpce-1", "sg-1"⟩).1 =
      .ok none := by
  rfl

/-- C6 as amended: whenever the recorded identifier is non-empty but no
endpoint with that id exists, generateRoute53Record returns no record and no
error (the Go `(nil, nil)` pair), rather than failing. -/
theorem generateRoute53Record_absent (cloud : Cloud) (res : VpcEndpointCR)
    (hid : res.statusVpcEndpointId ≠ "")
    (habs : ∀ e ∈ cloud.endpoints,
      e.vpcEndpointId ≠ res.statusVpcEndpointId) :
    (generateRoute53Record cloud res).1 = .ok none := by
  have hfilter : cloud.endpoints.filter
      (fun e => e.vpcEndpointId == res.statusVpcEndpointId) = [] := by
    rw [List.filter_eq_nil_iff]
    intro e he
    simpa using habs e he
  unfold generateRoute53Record
  rw [if_neg hid]
  have hd : (DescribeSingleVPCEndpointById
      (cloudDescribeVpcEndpointsById cloud) res.statusVpcEndpointId).1 =
        .okNil := by
    unfold DescribeSingleVPCEndpointById cloudDescribeVpcEndpointsById
    rw [if_neg hid, hfilter]
  simp only [hd]

/-- Witness for the amended C6 at a concrete cloud holding one unrelated
endpoint. -/
theorem generateRoute53Record_absent_witness :
    (generateRoute53Record
      ⟨[⟨"vpce-other", "available", [], [], ["d"], []⟩], []⟩
      ⟨"r", "svc", "vpce-1", "sg-1"⟩).1 = .ok none :=
  generateRoute53Record_absent
    ⟨[⟨"vpce-other", "available", [], [], ["d"], []⟩], []⟩
    ⟨"r", "svc", "vpce-1", "sg-1"⟩ (by decide) (by decide)

/-- A concrete endpoint carrying the full default tag set, first of the two
ambiguous matches. -/
def e1Amb : VpcEndpoint :=
  ⟨"vpce-1", "available", [], [], [],
    [("Name", "infra-r"), ("ct", "owned"),
     (OperatorTagKey, OperatorTagValue)]⟩

/-- A second concrete endpoint carrying the same default tag set. -/
def e2Amb : VpcEndpoint :=
  ⟨"vpce-2", "available", [], [], [],
    [("Name", "infra-r"), ("ct", "owned"),
     (OperatorTagKey, OperatorTagValue)]⟩

/-- A cloud in which two endpoints match the default tag predicate. -/
def cloudAmb : Cloud := ⟨[e1Amb, e2Amb], []⟩

/-- Counterexample to C5: the tag search returns two matches, yet the
locator returns the first match with no error at all — the ambiguity is
silently resolved, not surfaced. -/
theorem findOrCreate_ambiguity_cex :
    (FilterVPCEndpointByDefaultTags cloudAmb "ct" "infra-r").1 =
      .ok [e1Amb, e2Amb] ∧
    findOrCreateVpcEndpoint cloudAmb ⟨"ct", "infra", "vpc-1"⟩
        ⟨"r", "svc", "", "sg-1"⟩ =
      (.ok e1Amb, [.describeByTags "ct" "infra-r"]) := by
  exact ⟨rfl, rfl⟩

/-- Auxiliary: the call trace of the subnet synchronizer, in terms of the
two parts of the computed diff. -/
theorem ensureVpcEndpointSubnets_trace (cloud : Cloud) (info : ClusterInfo)
    (vpce : VpcEndpoint) (ta tr : List String)
    (htag : info.clusterTag ≠ "")
    (hdiff : StringSliceTwoWayDiff vpce.subnetIds cloud.privateSubnetIds =
      (ta, tr)) :
    (ensureVpcEndpointSubnets cloud info vpce).2 =
      (if tr.isEmpty then []
        else [AwsCall.modifyRemoveSubnets vpce.vpcEndpointId tr]) ++
      (if ta.isEmpty then []
        else [AwsCall.modifyAddSubnets vpce.vpcEndpointId ta]) := by
  unfold ensureVpcEndpointSubnets diffVpcEndpointSubnets
  rw [if_neg htag, hdiff]

/-- Auxiliary: the call trace of the security group synchronizer, in terms
of the two parts of the computed diff. -/
theorem ensureVpcEndpointSecurityGroups_trace (vpce : VpcEndpoint)
    (res : VpcEndpointCR) (ta tr : List String)
    (hdiff : diffVpcEndpointSecurityGroups vpce res = (ta, tr)) :
    (ensureVpcEndpointSecurityGroups vpce res).2 =
      (if ta.isEmpty then []
        else [AwsCall.modifyAddGroups vpce.vpcEndpointId ta]) ++
      (if tr.isEmpty then []
        else [AwsCall.modifyRemoveGroups vpce.vpcEndpointId tr]) := by
  unfold ensureVpcEndpointSecurityGroups
  rw [hdiff]

/-- C5 as amended: when the identifier lookup yields nothing and the tag
search returns one or more matches, the locator silently uses the first
match and reports no error, however many matches there are (the TODO in the
source flags this as a pending fix). -/
theorem findOrCreate_first_tag_match (cloud : Cloud) (info : ClusterInfo)
    (res : VpcEndpointCR) (v : VpcEndpoint) (rest : List VpcEndpoint)
    (hid : res.statusVpcEndpointId = "")
    (hfilter : (FilterVPCEndpointByDefaultTags cloud info.clusterTag
      (GenerateVPCEndpointName info.infraName res.name)).1 =
        .ok (v :: rest)) :
    (findOrCreateVpcEndpoint cloud info res).1 = .ok v := by
  simp only [findOrCreateVpcEndpoint, hid, DescribeSingleVPCEndpointById,
    if_true, reduceIte, hfilter]

/-- Witness for the amended C5 at the two-match cloud. -/
theorem findOrCreate_first_tag_match_witness :
    (findOrCreateVpcEndpoint cloudAmb ⟨"ct", "infra", "vpc-1"⟩
      ⟨"r", "svc", "", "sg-1"⟩).1 = .ok e1Amb :=
  findOrCreate_first_tag_match cloudAmb ⟨"ct", "infra", "vpc-1"⟩
    ⟨"r", "svc", "", "sg-1"⟩ e1Amb [e2Amb] rfl (by decide)

/-- Counterexample to C7: with an empty cluster tag (and an empty recorded
id), the locator does not report an error — it issues a creation call and
returns the created endpoint. -/
theorem findOrCreate_empty_cluster_tag_cex :
    findOrCreateVpcEndpoint ⟨[], []⟩ ⟨"", "infra", "vpc-1"⟩
        ⟨"r", "svc", "", "sg-1"⟩ =
      (.ok ⟨"vpce-infra-r", "pending", [], [], [],
        GenerateAwsTags "infra-r" ""⟩,
       [.createVpcEndpoint "infra-r" "vpc-1" "svc" ""]) ∧
    (AwsCall.createVpcEndpoint "infra-r" "vpc-1" "svc" "").isMutating =
      true := by
  exact ⟨rfl, rfl⟩

/-- C7 as amended: with an empty cluster tag the tag search returns an empty
result without error, so when the identifier lookup also yields nothing the
locator falls through to creating a new endpoint instead of reporting a
fatal input error. -/
theorem findOrCreate_empty_cluster_tag (cloud : Cloud) (info : ClusterInfo)
    (res : VpcEndpointCR)
    (htag : info.clusterTag = "") (hid : res.statusVpcEndpointId = "") :
    findOrCreateVpcEndpoint cloud info res =
      (.ok (CreateDefaultInterfaceVPCEndpoint
          (GenerateVPCEndpointName info.infraName res.name) info.vpcId
          res.serviceName info.clusterTag).1,
       [.createVpcEndpoint (GenerateVPCEndpointName info.infraName res.name)
          info.vpcId res.serviceName info.clusterTag]) := by
  simp only [findOrCreateVpcEndpoint, hid, htag,
    DescribeSingleVPCEndpointById, FilterVPCEndpointByDefaultTags,
    CreateDefaultInterfaceVPCEndpoint, if_true, reduceIte]
  rfl

/-- Witness for the amended C7 at a concrete cloud. -/
theorem findOrCreate_empty_cluster_tag_witness :
    findOrCreateVpcEndpoint ⟨[e1Amb], ["s1"]⟩ ⟨"", "infra", "vpc-1"⟩
        ⟨"r", "svc", "", "sg-1"⟩ =
      (.ok (CreateDefaultInterfaceVPCEndpoint "infra-r" "vpc-1"
          "svc" "").1,
       [.createVpcEndpoint "infra-r" "vpc-1" "svc" ""]) :=
  findOrCreate_empty_cluster_tag ⟨[e1Amb], ["s1"]⟩ ⟨"", "infra", "vpc-1"⟩
    ⟨"r", "svc", "", "sg-1"⟩ rfl rfl

/-- The concrete endpoint of the ordering counterexample: subnets s1,s2 and
the single stale security group sg-old. -/
def vpceOrd : VpcEndpoint :=
  ⟨"vpce-1", "available", ["s1", "s2"], ["sg-old"], [], []⟩

/-- The concrete resource of the ordering counterexample, recording the
desired security group sg-new. -/
def resOrd : VpcEndpointCR := ⟨"r", "svc", "vpce-1", "sg-new"⟩

/-- The concrete cloud of the ordering counterexample: the desired private
subnets are s2,s3. -/
def cloudOrd : Cloud := ⟨[vpceOrd], ["s2", "s3"]⟩

/-- The concrete cluster configuration of the ordering counterexample. -/
def infoOrd : ClusterInfo := ⟨"ct", "infra", "vpc-1"⟩

/-- Whether a call is a security group removal request. -/
def isSgRemoveCall : AwsCall → Bool
  | .modifyRemoveGroups _ _ => true
  | _ => false

/-- Whether a call is a security group addition request. -/
def isSgAddCall : AwsCall → Bool
  | .modifyAddGroups _ _ => true
  | _ => false

/-- Counterexample to C1: at an input whose subnet diff and security group
diff both have non-empty toAdd and toRemove parts, the security group
synchronizer issues the addition request first — the removal request is not
strictly before the addition request. -/
theorem sg_removal_not_before_addition_cex :
    diffVpcEndpointSubnets cloudOrd infoOrd vpceOrd =
      .ok (["s3"], ["s1"]) ∧
    diffVpcEndpointSecurityGroups vpceOrd resOrd =
      (["sg-new"], ["sg-old"]) ∧
    (ensureVpcEndpointSecurityGroups vpceOrd resOrd).2 =
      [.modifyAddGroups "vpce-1" ["sg-new"],
       .modifyRemoveGroups "vpce-1" ["sg-old"]] ∧
    ¬((ensureVpcEndpointSecurityGroups vpceOrd resOrd).2.findIdx
        isSgRemoveCall <
      (ensureVpcEndpointSecurityGroups vpceOrd resOrd).2.findIdx
        isSgAddCall) := by
  refine ⟨rfl, rfl, rfl, ?_⟩
  decide

/-- C1 as amended: within one reconcile pass, the subnet synchronizer issues
the removal request strictly before the addition request when both diff
parts are non-empty, while the security group synchronizer issues the
addition request strictly before the removal request. -/
theorem attachment_sync_ordering (cloud : Cloud) (info : ClusterInfo)
    (vpce : VpcEndpoint) (res : VpcEndpointCR)
    (htag : info.clusterTag ≠ "")
    (hsa : (StringSliceTwoWayDiff vpce.subnetIds
      cloud.privateSubnetIds).1 ≠ [])
    (hsr : (StringSliceTwoWayDiff vpce.subnetIds
      cloud.privateSubnetIds).2 ≠ [])
    (hga : (diffVpcEndpointSecurityGroups vpce res).1 ≠ [])
    (hgr : (diffVpcEndpointSecurityGroups vpce res).2 ≠ []) :
    (ensureVpcEndpointSubnets cloud info vpce).2 =
      [.modifyRemoveSubnets vpce.vpcEndpointId
        (StringSliceTwoWayDiff vpce.subnetIds cloud.privateSubnetIds).2,
       .modifyAddSubnets vpce.vpcEndpointId
        (StringSliceTwoWayDiff vpce.subnetIds cloud.privateSubnetIds).1] ∧
    (ensureVpcEndpointSecurityGroups vpce res).2 =
      [.modifyAddGroups vpce.vpcEndpointId
        (diffVpcEndpointSecurityGroups vpce res).1,
       .modifyRemoveGroups vpce.vpcEndpointId
        (diffVpcEndpointSecurityGroups vpce res).2] := by
  rcases hS : StringSliceTwoWayDiff vpce.subnetIds cloud.privateSubnetIds
    with ⟨ta, tr⟩
  rcases hG : diffVpcEndpointSecurityGroups vpce res with ⟨ga, gr⟩
  rw [hS] at hsa hsr
  rw [hG] at hga hgr
  constructor
  · rw [ensureVpcEndpointSubnets_trace cloud info vpce ta tr htag hS,
      if_neg (fun h => hsr (List.isEmpty_iff.mp h)),
      if_neg (fun h => hsa (List.isEmpty_iff.mp h))]
    rfl
  · rw [ensureVpcEndpointSecurityGroups_trace vpce res ga gr hG,
      if_neg (fun h => hga (List.isEmpty_iff.mp h)),
      if_neg (fun h => hgr (List.isEmpty_iff.mp h))]
    rfl

/-- Witness for the amended C1 at the concrete ordering input. -/
theorem attachment_sync_ordering_witness :
    (ensureVpcEndpointSubnets cloudOrd infoOrd vpceOrd).2 =
      [.modifyRemoveSubnets "vpce-1" ["s1"],
       .modifyAddSubnets "vpce-1" ["s3"]] ∧
    (ensureVpcEndpointSecurityGroups vpceOrd resOrd).2 =
      [.modifyAddGroups "vpce-1" ["sg-new"],
       .modifyRemoveGroups "vpce-1" ["sg-old"]] :=
  attachment_sync_ordering cloudOrd infoOrd vpceOrd resOrd
    (by decide) (by decide) (by decide) (by decide) (by decide)

/-- Whether a call is a CreateVpcEndpoint request. -/
def isCreateCall : AwsCall → Bool
  | .createVpcEndpoint _ _ _ _ => true
  | _ => false

/-- Auxiliary: DescribeSingleVPCEndpointById never issues a creation call. -/
theorem describeSingle_trace_no_create
    (api : String → Except ApiErr (List VpcEndpoint)) (id : String) :
    (DescribeSingleVPCEndpointById api id).2.filter isCreateCall = [] := by
  by_cases hid : id = ""
  · subst hid
    rfl
  · rw [describeSingle_trace api id hid]
    rfl

/-- Auxiliary: FilterVPCEndpointByDefaultTags never issues a creation
call. -/
theorem filterByTags_trace_no_create (cloud : Cloud)
    (clusterTag vpceNameTag : String) :
    (FilterVPCEndpointByDefaultTags cloud clusterTag
      vpceNameTag).2.filter isCreateCall = [] := by
  by_cases h : clusterTag = ""
  · simp [FilterVPCEndpointByDefaultTags, h]
  · simp [FilterVPCEndpointByDefaultTags, h, isCreateCall]

/-- C9: the locator works in strict order. If the identifier lookup returns
an endpoint, the locator returns it and its whole trace is that single
lookup — no tag search and no creation call. If the identifier lookup and
the tag search both yield nothing, the locator returns the created endpoint
and its trace holds exactly one creation call, carrying the synthesized name
and the cluster tag. -/
theorem findOrCreate_strict_order (cloud : Cloud) (info : ClusterInfo)
    (res : VpcEndpointCR) :
    (∀ v rest, (DescribeSingleVPCEndpointById
        (cloudDescribeVpcEndpointsById cloud) res.statusVpcEndpointId).1 =
          .ok (v :: rest) →
      findOrCreateVpcEndpoint cloud info res =
        (.ok v, [.describeById res.statusVpcEndpointId])) ∧
    (((DescribeSingleVPCEndpointById
        (cloudDescribeVpcEndpointsById cloud) res.statusVpcEndpointId).1 =
          .ok [] ∨
      (DescribeSingleVPCEndpointById
        (cloudDescribeVpcEndpointsById cloud) res.statusVpcEndpointId).1 =
          .okNil) →
      (FilterVPCEndpointByDefaultTags cloud info.clusterTag
        (GenerateVPCEndpointName info.infraName res.name)).1 = .ok [] →
      (findOrCreateVpcEndpoint cloud info res).1 =
        .ok (CreateDefaultInterfaceVPCEndpoint
          (GenerateVPCEndpointName info.infraName res.name) info.vpcId
          res.serviceName info.clusterTag).1 ∧
      (findOrCreateVpcEndpoint cloud info res).2.filter isCreateCall =
        [.createVpcEndpoint (GenerateVPCEndpointName info.infraName res.name)
          info.vpcId res.serviceName info.clusterTag]) := by
  constructor
  · intro v rest h
    have hid : res.statusVpcEndpointId ≠ "" := by
      intro h0
      rw [h0] at h
      simp [DescribeSingleVPCEndpointById] at h
    have htr := describeSingle_trace (cloudDescribeVpcEndpointsById cloud)
      res.statusVpcEndpointId hid
    have hpair : DescribeSingleVPCEndpointById
        (cloudDescribeVpcEndpointsById cloud) res.statusVpcEndpointId =
        (.ok (v :: rest), [.describeById res.statusVpcEndpointId]) :=
      Prod.ext h htr
    unfold findOrCreateVpcEndpoint
    rw [hpair]
  · intro hlook hfilt
    rcases hE : DescribeSingleVPCEndpointById
        (cloudDescribeVpcEndpointsById cloud) res.statusVpcEndpointId
      with ⟨a, t1⟩
    rcases hF : FilterVPCEndpointByDefaultTags cloud info.clusterTag
        (GenerateVPCEndpointName info.infraName res.name) with ⟨b, t2⟩
    rw [hE] at hlook
    rw [hF] at hfilt
    dsimp only at hlook hfilt
    have ht1 := describeSingle_trace_no_create
      (cloudDescribeVpcEndpointsById cloud) res.statusVpcEndpointId
    have ht2 := filterByTags_trace_no_create cloud info.clusterTag
      (GenerateVPCEndpointName info.infraName res.name)
    rw [hE] at ht1
    rw [hF] at ht2
    dsimp only at ht1 ht2
    rw [hfilt] at hF
    have hfc : findOrCreateVpcEndpoint cloud info res =
        (.ok (CreateDefaultInterfaceVPCEndpoint
          (GenerateVPCEndpointName info.infraName res.name) info.vpcId
          res.serviceName info.clusterTag).1,
         t1 ++ t2 ++
          [.createVpcEndpoint (GenerateVPCEndpointName info.infraName
            res.name) info.vpcId res.serviceName info.clusterTag]) := by
      rcases hlook with h1 | h1 <;> rw [h1] at hE <;>
        (unfold findOrCreateVpcEndpoint; simp only [hE, hF]; rfl)
    rw [hfc]
    refine ⟨rfl, ?_⟩
    simp only [List.filter_append, ht1, ht2, List.nil_append]
    rfl

/-- Witness for C9: with the recorded id present in the cloud, the locator
returns that endpoint after a single lookup call. -/
theorem findOrCreate_strict_order_witness :
    findOrCreateVpcEndpoint cloudOrd infoOrd resOrd =
      (.ok vpceOrd, [.describeById "vpce-1"]) :=
  (findOrCreate_strict_order cloudOrd infoOrd resOrd).1 vpceOrd []
    (by decide)

/-- C4: a reconcile pass over a cloud state that a previous successful pass
converged — the endpoint is found under the recorded id, the subnet diff and
the security group diff are both empty — issues no mutating call at all: no
CreateVpcEndpoint and no ModifyVpcEndpoint. -/
theorem reconcile_idempotent (cloud : Cloud) (info : ClusterInfo)
    (res : VpcEndpointCR) (vpce : VpcEndpoint)
    (hlookup : cloud.endpoints.filter
      (fun e => e.vpcEndpointId == res.statusVpcEndpointId) = [vpce])
    (hid : res.statusVpcEndpointId ≠ "")
    (htag : info.clusterTag ≠ "")
    (hsub : StringSliceTwoWayDiff vpce.subnetIds cloud.privateSubnetIds =
      ([], []))
    (hsg : diffVpcEndpointSecurityGroups vpce res = ([], [])) :
    ∀ c ∈ (reconcilePass cloud info res).2, c.isMutating = false := by
  have hapi : cloudDescribeVpcEndpointsById cloud res.statusVpcEndpointId =
      .ok [vpce] := by
    unfold cloudDescribeVpcEndpointsById
    rw [hlookup]
  have hd : DescribeSingleVPCEndpointById
      (cloudDescribeVpcEndpointsById cloud) res.statusVpcEndpointId =
      (.ok [vpce], [.describeById res.statusVpcEndpointId]) := by
    unfold DescribeSingleVPCEndpointById
    rw [if_neg hid, hapi]
    simp
  have hfoc : findOrCreateVpcEndpoint cloud info res =
      (.ok vpce, [.describeById res.statusVpcEndpointId]) := by
    unfold findOrCreateVpcEndpoint
    rw [hd]
  have hsubE : ensureVpcEndpointSubnets cloud info vpce = (.ok (), []) := by
    unfold ensureVpcEndpointSubnets diffVpcEndpointSubnets
    rw [if_neg htag, hsub]
    rfl
  have hsgE : ensureVpcEndpointSecurityGroups vpce res = (.ok (), []) := by
    unfold ensureVpcEndpointSecurityGroups
    rw [hsg]
    rfl
  have hr53 : (generateRoute53Record cloud res).2 =
      [.describeById res.statusVpcEndpointId] := by
    unfold generateRoute53Record
    rw [if_neg hid]
    simp only [hd]
    by_cases hstate : vpce.state ≠ "available"
    · rw [if_pos hstate]
    · rw [if_neg hstate]
      cases vpce.dnsEntries <;> rfl
  intro c hc
  unfold reconcilePass at hc
  simp only [hfoc] at hc
  simp only [hsubE] at hc
  simp only [hsgE] at hc
  simp only [hr53] at hc
  simp only [List.nil_append, List.append_nil, List.mem_append,
    List.mem_singleton] at hc
  rcases hc with h | h <;> subst h <;> rfl

/-- A converged endpoint for the idempotence witness: its subnets are the
private subnets and its security group is the recorded one. -/
def vpceConv : VpcEndpoint :=
  ⟨"vpce-1", "available", ["s1"], ["sg-1"], ["dns"], []⟩

/-- The converged cloud for the idempotence witness. -/
def cloudConv : Cloud := ⟨[vpceConv], ["s1"]⟩

/-- The resource for the idempotence witness, recording the endpoint id and
security group id of the converged endpoint. -/
def resConv : VpcEndpointCR := ⟨"r", "svc", "vpce-1", "sg-1"⟩

/-- Witness for C4 at the converged concrete cloud: the pass issues the
lookup call, and that call is not mutating. -/
theorem reconcile_idempotent_witness :
    AwsCall.describeById "vpce-1" ∈
      (reconcilePass cloudConv infoOrd resConv).2 ∧
    (AwsCall.describeById "vpce-1").isMutating = false :=
  ⟨by decide,
   reconcile_idempotent cloudConv infoOrd resConv vpceConv
     (by decide) (by decide) (by decide) (by decide) (by decide)
     (.describeById "vpce-1") (by decide)⟩

/-- Auxiliary: the selection loop either keeps the initial accumulator — in
which case no scanned count is below it — or ends on a scanned id whose
count it carries, improving on the initial accumulator and minimal among
all scanned counts. -/
theorem selectLoop_foldl_spec (count : String → Nat) (l : List String) :
    ∀ acc : String × Nat,
      (l.foldl (selectLoopStep count) acc = acc ∧
        ∀ u ∈ l, acc.2 ≤ count u) ∨
      ((l.foldl (selectLoopStep count) acc).1 ∈ l ∧
       (l.foldl (selectLoopStep count) acc).2 =
         count (l.foldl (selectLoopStep count) acc).1 ∧
       (l.foldl (selectLoopStep count) acc).2 ≤ acc.2 ∧
       ∀ u ∈ l, (l.foldl (selectLoopStep count) acc).2 ≤ count u) := by
  induction l with
  | nil =>
      intro acc
      exact .inl ⟨rfl, by simp⟩
  | cons x xs ih =>
      intro acc
      rw [List.foldl_cons]
      by_cases h : count x < acc.2
      · have hstep : selectLoopStep count acc x = (x, count x) := by
          unfold selectLoopStep
          rw [if_pos h]
        rw [hstep]
        rcases ih (x, count x) with ⟨heq, hall⟩ | ⟨hmem, hcnt, hle, hall⟩
        · refine .inr ⟨?_, ?_, ?_, ?_⟩
          · rw [heq]
            exact List.mem_cons_self x xs
          · rw [heq]
          · rw [heq]
            exact Nat.le_of_lt h
          · intro u hu
            rcases List.mem_cons.mp hu with h2 | h2
            · subst h2
              rw [heq]
            · rw [heq]
              exact hall u h2
        · refine .inr ⟨List.mem_cons_of_mem x hmem, hcnt, ?_, ?_⟩
          · exact Nat.le_trans hle (Nat.le_of_lt h)
          · intro u hu
            rcases List.mem_cons.mp hu with h2 | h2
            · subst h2
              exact hle
            · exact hall u h2
      · have hstep : selectLoopStep count acc x = acc := by
          unfold selectLoopStep
          rw [if_neg h]
        rw [hstep]
        rcases ih acc with ⟨heq, hall⟩ | ⟨hmem, hcnt, hle, hall⟩
        · refine .inl ⟨heq, ?_⟩
          intro u hu
          rcases List.mem_cons.mp hu with h2 | h2
          · subst h2
            exact Nat.le_of_not_lt h
          · exact hall u h2
        · refine .inr ⟨List.mem_cons_of_mem x hmem, hcnt, hle, ?_⟩
          intro u hu
          rcases List.mem_cons.mp hu with h2 | h2
          · subst h2
            exact Nat.le_trans hle (Nat.le_of_not_lt h)
          · exact hall u h2

/-- C2 as amended: for every admissible iteration order — a permutation of
the deduplicated candidate list, the key set of the Go count map when every
returned endpoint lies in a candidate VPC — the selector returns some
candidate whose endpoint count is minimal among all candidates. Which of
several equally loaded candidates is returned depends on the iteration
order, which Go leaves unspecified. -/
theorem selectVPC_least_loaded (order ids endpointVpcIds : List String)
    (hperm : order.Perm ids.dedup)
    (hids : ids ≠ [])
    (hne : "" ∉ ids)
    (hlen : endpointVpcIds.length < goMaxInt)
    (_hsub : ∀ v ∈ endpointVpcIds, v ∈ ids) :
    ∃ v, SelectVPCForVPCEndpoint order ids endpointVpcIds = .ok v ∧
      v ∈ ids ∧
      ∀ u ∈ ids, endpointVpcIds.count v ≤ endpointVpcIds.count u := by
  have horder : order ≠ [] := by
    intro h0
    rw [h0] at hperm
    have := hperm.symm.eq_nil
    exact hids ((List.dedup_eq_nil ids).mp this)
  rcases selectLoop_foldl_spec (fun id => endpointVpcIds.count id) order
      ("", goMaxInt) with ⟨heq, hall⟩ | ⟨hmem, hcnt, _hle, hall⟩
  · obtain ⟨u0, hu0⟩ := List.exists_mem_of_ne_nil order horder
    have h1 := hall u0 hu0
    have h2 : endpointVpcIds.count u0 ≤ endpointVpcIds.length :=
      List.count_le_length u0 endpointVpcIds
    exact absurd (Nat.le_trans h1 h2) (Nat.not_le_of_lt hlen)
  · set r := order.foldl
      (selectLoopStep (fun id => endpointVpcIds.count id)) ("", goMaxInt)
      with hr
    have hrids : r.1 ∈ ids := List.mem_dedup.mp (hperm.subset hmem)
    have hrne : r.1 ≠ "" := by
      intro h0
      rw [h0] at hrids
      exact hne hrids
    refine ⟨r.1, ?_, hrids, ?_⟩
    · unfold SelectVPCForVPCEndpoint
      rw [if_neg (by simp [List.isEmpty_iff, hids]), if_neg hrne]
    · intro u hu
      have huo : u ∈ order := hperm.mem_iff.mpr (List.mem_dedup.mpr hu)
      have := hall u huo
      rw [hcnt] at this
      exact this

/-- Witness for the amended C2: with counts v1 has 3, v2 has 1, v3 has 1 and
the input iteration order, the selector returns a minimum candidate. -/
theorem selectVPC_least_loaded_witness :
    ∃ v, SelectVPCForVPCEndpoint ["v1", "v2", "v3"] ["v1", "v2", "v3"]
        ["v1", "v1", "v1", "v2", "v3"] = .ok v ∧
      v ∈ ["v1", "v2", "v3"] ∧
      ∀ u ∈ ["v1", "v2", "v3"],
        List.count v ["v1", "v1", "v1", "v2", "v3"] ≤
          List.count u ["v1", "v1", "v1", "v2", "v3"] :=
  selectVPC_least_loaded ["v1", "v2", "v3"] ["v1", "v2", "v3"]
    ["v1", "v1", "v1", "v2", "v3"]
    (by decide) (by decide) (by decide) (by decide) (by decide)

/-- Counterexample to C2: with endpoint counts v1 three, v2 one, v3 one and
candidates v1,v2,v3, the admissible iteration order v1,v3,v2 — a permutation
of the count map keys — makes the selector return v3, while the input-order
iteration returns v2. The tie-break therefore depends on the unspecified Go
map iteration order and is not deterministically the first minimum in input
order. -/
theorem selectVPC_tiebreak_cex :
    SelectVPCForVPCEndpoint ["v1", "v3", "v2"] ["v1", "v2", "v3"]
        ["v1", "v1", "v1", "v2", "v3"] = .ok "v3" ∧
    List.Perm ["v1", "v3", "v2"] (["v1", "v2", "v3"].dedup) ∧
    SelectVPCForVPCEndpoint ["v1", "v2", "v3"] ["v1", "v2", "v3"]
        ["v1", "v1", "v1", "v2", "v3"] = .ok "v2" := by
  refine ⟨rfl, ?_, rfl⟩
  decide

end AVO
